import Mathlib

/-!
Shallow embedding of the Streamlit finance-automation app (`main.py`):
the bounded console/error logs, the file combiner built on the table
library's row-wise concatenation, and the script-execution harness that
runs a user script against a copy of the working table and extracts the
designated result binding.
-/

namespace FinanceAutomation

/-- A table cell: either a null marker or an (abstract) scalar payload. -/
inductive Cell where
  | na : Cell
  | val : String → Cell
deriving DecidableEq, Repr

/-- A table: ordered named columns and a list of rows (`pandas.DataFrame`
at the granularity this app observes: column list and row list). -/
structure DataFrame where
  cols : List String
  rows : List (List Cell)
deriving DecidableEq, Repr

instance : Inhabited DataFrame := ⟨⟨[], []⟩⟩

/-- Session log state: `st.session_state.console_logs` and
`st.session_state.error_logs`. -/
structure St where
  console_logs : List String
  error_logs : List String
deriving DecidableEq, Repr

/-- The icon map of `log_to_console`:
`{'info': 'INFO', 'success': 'SUCCESS', 'error': 'ERROR', 'warning': 'WARNING'}.get(msg_type, 'INFO')`. -/
def icon (msg_type : String) : String :=
  if msg_type = "info" then "INFO"
  else if msg_type = "success" then "SUCCESS"
  else if msg_type = "error" then "ERROR"
  else if msg_type = "warning" then "WARNING"
  else "INFO"

/-- The formatted console entry `f"[{timestamp}] [{icon}] {message}"`. -/
def consoleEntry (ts msg_type message : String) : String :=
  "[" ++ ts ++ "] [" ++ icon msg_type ++ "] " ++ message

/-- The formatted error entry `f"[{timestamp}] ERROR: {error_msg}"`,
optionally extended with the traceback block. -/
def errorEntry (ts error_msg : String) (traceback_str : Option String) : String :=
  "[" ++ ts ++ "] ERROR: " ++ error_msg ++
    (match traceback_str with
     | some tb => "\n\nTraceback:\n" ++ tb
     | none => "")

/-- `logs[-cap:]` applied only when the list exceeds the cap, as in both
log functions. -/
def truncTo (cap : Nat) (l : List String) : List String :=
  if l.length > cap then l.drop (l.length - cap) else l

/-- `log_to_console(message, msg_type='info')`: append a formatted entry,
then keep only the last 100 entries. The timestamp is passed explicitly
(the source draws it from the wall clock). -/
def log_to_console (ts : String) (st : St) (message : String) (msg_type : String) : St :=
  { st with console_logs := truncTo 100 (st.console_logs ++ [consoleEntry ts msg_type message]) }

/-- `log_error(error_msg, traceback_str=None)`: append a formatted entry,
then keep only the last 20 entries. -/
def log_error (ts : String) (st : St) (error_msg : String) (traceback_str : Option String) : St :=
  { st with error_logs := truncTo 20 (st.error_logs ++ [errorEntry ts error_msg traceback_str]) }

/-- The `"=" * 50` banner line. -/
def bannerLine : String := "".pushn '=' 50

/-- The exception tiers distinguished by `execute_python_script`:
`SyntaxError` (with line number), `NameError`, and any other exception.
The string field models `str(e)`. -/
inductive PyError where
  | syntaxError : Nat → String → PyError
  | nameError : String → PyError
  | otherError : String → PyError
deriving DecidableEq, Repr

/-- The tier-specific message the harness builds from an exception. -/
def pyErrMsg : PyError → String
  | .syntaxError lineno m => "Syntax Error on line " ++ toString lineno ++ ": " ++ m
  | .nameError m => "Name Error: " ++ m
  | .otherError m => "Execution failed: " ++ m

/-- A Python value as the harness discriminates it: `None`, a `DataFrame`,
or anything else (carrying the `type(...)` display string). -/
inductive PyVal where
  | pynone : PyVal
  | frame : DataFrame → PyVal
  | otherVal : String → PyVal
deriving DecidableEq, Repr

/-- The observable outcome of `exec(script, exec_globals, exec_locals)`:
either an exception (with its traceback text), or normal completion with
final local and global bindings. Both carry the lines the script printed
(routed through `PrintCapture`) and the final value of the `input_df`
object the script could mutate. -/
inductive ScriptOutcome where
  | raised : PyError → String → List String → DataFrame → ScriptOutcome
  | finished : List String → DataFrame → List (String × PyVal) → List (String × PyVal) → ScriptOutcome
deriving Repr

/-- A script's semantics at one instant: a function of the value of the
`input_df` copy placed in its namespace (the only session object the
namespace exposes). The namespace also hands the script the wall clock
(the datetime module), so a full script is a `TimedScript` — a family
of these indexed by the run time. -/
abbrev Script : Type := DataFrame → ScriptOutcome

/-- A script together with its wall-clock access: the execution
namespace binds the datetime module, so the script's outcome may depend
on the time of the run (the same clock the log timestamps read) as well
as on the input table. -/
abbrev TimedScript : Type := String → Script

/-- Object heap for the session's tables: `df.copy()` allocates a fresh
cell, so a script mutating its `input_df` writes the fresh cell only. -/
abbrev Heap : Type := List DataFrame

/-- `PrintCapture.write`: non-blank text is stripped and logged at info
level; blank text is dropped. -/
def printCaptureWrite (ts : String) (st : St) (text : String) : St :=
  if text.trim = "" then st else log_to_console ts st text.trim "info"

/-- The `output_df` selection of the harness: `output_df = None`, then
`if 'output_df' in exec_locals: ... elif 'output_df' in exec_globals: ...`
— the local binding first, the global one only when the local is absent. -/
def lookupOutput (locs globs : List (String × PyVal)) : PyVal :=
  match List.lookup "output_df" locs with
  | some v => v
  | none =>
    match List.lookup "output_df" globs with
    | some v => v
    | none => PyVal.pynone

/-- `execute_python_script(df, script)` over the heap model: `h` is the
session heap, `r` the reference of the working table. Returns the result
(`output_df` or `None`), the heap after the run, and the log state. -/
def execute_python_script (ts : String) (h : Heap) (r : Nat) (script : Script) (st : St) :
    Option DataFrame × Heap × St :=
  let df := h.getD r default
  let st := log_to_console ts st bannerLine "info"
  let st := log_to_console ts st "Starting script execution..." "info"
  let st := log_to_console ts st
    ("Input data: " ++ toString df.rows.length ++ " rows × " ++ toString df.cols.length ++ " columns") "info"
  let st := log_to_console ts st bannerLine "info"
  let rc := h.length
  let h := h ++ [df]
  match script df with
  | .raised e tb prints dfAfter =>
    let h := h.set rc dfAfter
    let st := prints.foldl (printCaptureWrite ts) st
    let emsg := pyErrMsg e
    let st := log_to_console ts st emsg "error"
    let st := log_error ts st emsg (some tb)
    (none, h, st)
  | .finished prints dfAfter locs globs =>
    let h := h.set rc dfAfter
    let st := prints.foldl (printCaptureWrite ts) st
    match lookupOutput locs globs with
    | .pynone =>
      let emsg := "Script must define \x27output_df\x27 variable"
      let st := log_to_console ts st emsg "error"
      let st := log_error ts st emsg (some "No output_df found after script execution")
      (none, h, st)
    | .frame d =>
      let st := log_to_console ts st bannerLine "success"
      let st := log_to_console ts st
        ("Output generated: " ++ toString d.rows.length ++ " rows × " ++ toString d.cols.length ++ " columns") "success"
      let st := log_to_console ts st bannerLine "success"
      (some d, h, st)
    | .otherVal tname =>
      let emsg := "output_df must be a DataFrame, got " ++ tname
      let st := log_to_console ts st emsg "error"
      let st := log_error ts st emsg none
      (none, h, st)

/-- The result component of a run, as a pure function of the script and
the working table's value (the harness adds no other dependence). -/
def resultOf (script : Script) (df : DataFrame) : Option DataFrame :=
  match script df with
  | .raised _ _ _ _ => none
  | .finished _ _ locs globs =>
    match lookupOutput locs globs with
    | .pynone => none
    | .frame d => some d
    | .otherVal _ => none

/-- Modelled from the spec: the first-seen column order of row-wise
concatenation — "the combined table's column set is the union/alignment
of inputs". -/
def unionCols (css : List (List String)) : List String :=
  css.foldl (fun acc cs => acc ++ cs.filter (fun c => decide (c ∉ acc))) []

/-- Modelled from the spec: aligning one row of a table with columns `cs`
to the target column list `ts` — "missing values fill with a null
marker when column sets differ". -/
def realignRow (cs ts : List String) (row : List Cell) : List Cell :=
  ts.map (fun t =>
    match List.indexOf? t cs with
    | some i => row.getD i Cell.na
    | none => Cell.na)

/-- Modelled from the spec: `pd.concat(all_dfs, ignore_index=True)`, the
table library's row-wise concatenation — the column set is the
union/alignment of the inputs in first-seen order, missing values fill
with a null marker. -/
def pd_concat (dfs : List DataFrame) : DataFrame :=
  let ts := unionCols (dfs.map (fun d => d.cols))
  ⟨ts, dfs.flatMap (fun d => d.rows.map (realignRow d.cols ts))⟩

/-- An uploaded file as the combiner sees it: a name and raw content. -/
structure UploadedFile where
  name : String
  content : String
deriving DecidableEq, Repr

/-- The loop body of `combine_uploaded_files`: load one file, skip it on
failure, otherwise collect it and log the success line. -/
def combineStep (ts : String) (process : UploadedFile → Option DataFrame)
    (acc : List DataFrame × St) (f : UploadedFile) : List DataFrame × St :=
  match process f with
  | some df =>
    (acc.1 ++ [df],
     log_to_console ts acc.2 ("Loaded: " ++ f.name ++ " (" ++ toString df.rows.length ++ " rows)") "success")
  | none => acc

/-- `combine_uploaded_files(uploaded_files)`. The per-file loader
(`process_uploaded_file`, whose parsing core is the out-of-scope
CSV/spreadsheet library) is passed in as `process`; a `none` result is a
load failure, which the combiner skips. -/
def combine_uploaded_files (ts : String) (process : UploadedFile → Option DataFrame)
    (uploaded_files : List UploadedFile) (st : St) : Option DataFrame × St :=
  match uploaded_files with
  | [] => (none, st)
  | _ =>
    let st := log_to_console ts st
      ("Processing " ++ toString uploaded_files.length ++ " file(s)...") "info"
    let p := uploaded_files.foldl (combineStep ts process) (([] : List DataFrame), st)
    match p.1 with
    | [] => (none, p.2)
    | [d] =>
      let st := log_to_console ts p.2
        ("Total: " ++ toString d.rows.length ++ " rows, " ++ toString d.cols.length ++ " columns") "info"
      (some d, st)
    | d1 :: d2 :: drest =>
      let all_dfs := d1 :: d2 :: drest
      let combined_df := pd_concat all_dfs
      let st := log_to_console ts p.2 ("Combined " ++ toString all_dfs.length ++ " files") "success"
      let st := log_to_console ts st
        ("Total: " ++ toString combined_df.rows.length ++ " rows, " ++ toString combined_df.cols.length ++ " columns") "info"
      (some combined_df, st)

/-- One cell of the CSV export. -/
def cellCsv : Cell → String
  | .na => ""
  | .val s => s

/-- Modelled from the spec: the CSV export
`processed_data.to_csv(index=False)` — header row of column names, one
line per row, no index column. -/
def to_csv (df : DataFrame) : String :=
  String.intercalate "," df.cols ++ "\n" ++
    String.intercalate "\n" (df.rows.map (fun r => String.intercalate "," (r.map cellCsv))) ++ "\n"

/-- One call to either logging function, with its wall-clock timestamp. -/
inductive LogCall where
  | toConsole : String → String → String → LogCall
  | toError : String → String → Option String → LogCall
deriving Repr

/-- Apply one logging call to the session state. -/
def applyLog (st : St) : LogCall → St
  | .toConsole ts message msg_type => log_to_console ts st message msg_type
  | .toError ts error_msg tb => log_error ts st error_msg tb

/-- The formatted console entries a sequence of calls appends, without
any cap. -/
def consoleEntries : List LogCall → List String
  | [] => []
  | .toConsole ts message msg_type :: rest => consoleEntry ts msg_type message :: consoleEntries rest
  | .toError _ _ _ :: rest => consoleEntries rest

/-- The formatted error entries a sequence of calls appends, without any
cap. -/
def errorEntries : List LogCall → List String
  | [] => []
  | .toConsole _ _ _ :: rest => errorEntries rest
  | .toError ts error_msg tb :: rest => errorEntry ts error_msg tb :: errorEntries rest

/-! ## Helper lemmas -/

@[simp]
theorem console_log_error (ts : String) (st : St) (m : String) (tb : Option String) :
    (log_error ts st m tb).console_logs = st.console_logs := rfl

@[simp]
theorem error_log_to_console (ts : String) (st : St) (m t : String) :
    (log_to_console ts st m t).error_logs = st.error_logs := rfl

theorem console_log_to_console (ts : String) (st : St) (m t : String) :
    (log_to_console ts st m t).console_logs = truncTo 100 (st.console_logs ++ [consoleEntry ts t m]) := rfl

theorem error_log_error (ts : String) (st : St) (m : String) (tb : Option String) :
    (log_error ts st m tb).error_logs = truncTo 20 (st.error_logs ++ [errorEntry ts m tb]) := rfl

/-- Truncation keeps a freshly appended entry: the eviction is
oldest-first, so the newest entry survives. -/
theorem truncTo_getLast (cap : Nat) (l : List String) (a : String) (hcap : 0 < cap) :
    (truncTo cap (l ++ [a])).getLast? = some a := by
  unfold truncTo
  split
  · rename_i hlen
    have hlt : ¬ (l ++ [a]).length ≤ (l ++ [a]).length - cap := by omega
    rw [List.getLast?_drop, if_neg hlt]
    exact List.getLast?_concat l
  · exact List.getLast?_concat l

/-- The truncated log is a suffix of the untruncated one. -/
theorem truncTo_suffix (cap : Nat) (l : List String) : truncTo cap l <:+ l := by
  unfold truncTo
  split
  · exact List.drop_suffix _ _
  · exact List.suffix_refl l

/-- Truncation after an append preserves the cap. -/
theorem truncTo_length_le (cap : Nat) (l : List String) (a : String) (hl : l.length ≤ cap) :
    (truncTo cap (l ++ [a])).length ≤ cap := by
  unfold truncTo
  split
  · rename_i hlen
    simp only [List.length_drop, List.length_append, List.length_cons] at *
    omega
  · rename_i hlen
    omega

theorem suffix_append_same {α : Type} {l₁ l₂ : List α} (t : List α) (h : l₁ <:+ l₂) :
    l₁ ++ t <:+ l₂ ++ t := by
  obtain ⟨p, hp⟩ := h
  exact ⟨p, by rw [← List.append_assoc, hp]⟩

@[simp]
theorem error_printCaptureWrite (ts : String) (st : St) (text : String) :
    (printCaptureWrite ts st text).error_logs = st.error_logs := by
  unfold printCaptureWrite
  split <;> simp

@[simp]
theorem error_foldl_printCaptureWrite (ts : String) (prints : List String) (st : St) :
    (prints.foldl (printCaptureWrite ts) st).error_logs = st.error_logs := by
  induction prints generalizing st with
  | nil => rfl
  | cons p rest ih => simp [List.foldl, ih]

theorem getLast_console_log_to_console (ts : String) (st : St) (m t : String) :
    (log_to_console ts st m t).console_logs.getLast? = some (consoleEntry ts t m) := by
  rw [console_log_to_console]
  exact truncTo_getLast 100 _ _ (by norm_num)

theorem getLast_error_log_error (ts : String) (st : St) (m : String) (tb : Option String) :
    (log_error ts st m tb).error_logs.getLast? = some (errorEntry ts m tb) := by
  rw [error_log_error]
  exact truncTo_getLast 20 _ _ (by norm_num)

/-- The result component of a run depends only on the script and the
working table's value. -/
theorem execute_fst (ts : String) (h : Heap) (r : Nat) (script : Script) (st : St) :
    (execute_python_script ts h r script st).1 = resultOf script (h.getD r default) := by
  simp only [execute_python_script, resultOf]
  cases hsc : script (h.getD r default) with
  | raised e tb prints dfAfter => simp
  | finished prints dfAfter locs globs =>
    cases hv : lookupOutput locs globs <;> simp [hv]

/-- The session's working-table cell is untouched by a run: the script
receives a fresh copy, and only that fresh cell is written back. -/
theorem execute_getD_preserved (ts : String) (h : Heap) (r : Nat) (script : Script) (st : St)
    (hr : r < h.length) :
    ((execute_python_script ts h r script st).2.1).getD r default = h.getD r default := by
  have key : ∀ (x y : DataFrame), (((h ++ [x]).set h.length y).getD r default) = h.getD r default := by
    intro x y
    rw [List.getD_eq_getElem?_getD, List.getD_eq_getElem?_getD,
      List.getElem?_set_ne (Nat.ne_of_gt hr), List.getElem?_append]
    simp [hr]
  simp only [execute_python_script]
  cases hsc : script (h.getD r default) with
  | raised e tb prints dfAfter => simpa using key (h.getD r default) dfAfter
  | finished prints dfAfter locs globs =>
    cases hv : lookupOutput locs globs <;> simpa [hv] using key (h.getD r default) dfAfter

/-- Invariant of the two rolling logs under any sequence of calls:
the caps are preserved and each log stays a suffix of the full stream of
entries appended so far. -/
theorem foldl_applyLog_inv (calls : List LogCall) (st : St)
    (hc : st.console_logs.length ≤ 100) (he : st.error_logs.length ≤ 20) :
    (calls.foldl applyLog st).console_logs.length ≤ 100 ∧
    (calls.foldl applyLog st).error_logs.length ≤ 20 ∧
    (calls.foldl applyLog st).console_logs <:+ st.console_logs ++ consoleEntries calls ∧
    (calls.foldl applyLog st).error_logs <:+ st.error_logs ++ errorEntries calls := by
  induction calls generalizing st with
  | nil => exact ⟨hc, he, by simp [consoleEntries], by simp [errorEntries]⟩
  | cons c rest ih =>
    cases c with
    | toConsole ts m t =>
      have hstep := ih (log_to_console ts st m t)
        (by rw [console_log_to_console]; exact truncTo_length_le 100 _ _ hc)
        (by simpa using he)
      refine ⟨hstep.1, hstep.2.1, ?_, ?_⟩
      · refine hstep.2.2.1.trans ?_
        have h1 : (log_to_console ts st m t).console_logs ++ consoleEntries rest <:+
            (st.console_logs ++ [consoleEntry ts t m]) ++ consoleEntries rest := by
          refine suffix_append_same _ ?_
          rw [console_log_to_console]
          exact truncTo_suffix 100 _
        refine h1.trans ?_
        rw [List.append_assoc]
        simp [consoleEntries]
      · refine hstep.2.2.2.trans ?_
        simp [consoleEntries, errorEntries]
    | toError ts m tb =>
      have hstep := ih (log_error ts st m tb)
        (by simpa using hc)
        (by rw [error_log_error]; exact truncTo_length_le 20 _ _ he)
      refine ⟨hstep.1, hstep.2.1, ?_, ?_⟩
      · refine hstep.2.2.1.trans ?_
        simp [consoleEntries, errorEntries]
      · refine hstep.2.2.2.trans ?_
        have h1 : (log_error ts st m tb).error_logs ++ errorEntries rest <:+
            (st.error_logs ++ [errorEntry ts m tb]) ++ errorEntries rest := by
          refine suffix_append_same _ ?_
          rw [error_log_error]
          exact truncTo_suffix 20 _
        refine h1.trans ?_
        rw [List.append_assoc]
        simp [errorEntries]

/-- The tables collected by the combiner's loop are exactly the files
that loaded successfully, in order. -/
theorem combine_fold_fst (ts : String) (process : UploadedFile → Option DataFrame)
    (files : List UploadedFile) (acc : List DataFrame) (st : St) :
    (files.foldl (combineStep ts process) (acc, st)).1 = acc ++ files.filterMap process := by
  induction files generalizing acc st with
  | nil => simp
  | cons f rest ih =>
    cases hp : process f with
    | none => simp [List.foldl, combineStep, hp, ih]
    | some df => simp [List.foldl, combineStep, hp, ih]

/-- When every input column list equals `cs`, the first-seen union is
`cs` itself. -/
theorem unionCols_const (cs : List String) (css : List (List String))
    (hall : ∀ l ∈ css, l = cs) (hne : css ≠ []) : unionCols css = cs := by
  have haux : ∀ (rest : List (List String)), (∀ l ∈ rest, l = cs) →
      rest.foldl (fun acc cs => acc ++ cs.filter (fun c => decide (c ∉ acc))) cs = cs := by
    intro rest
    induction rest with
    | nil => intro _; rfl
    | cons l rest ih =>
      intro hmem
      have hl : l = cs := hmem l (by simp)
      have hfilter : cs.filter (fun c => decide (c ∉ cs)) = [] := by
        rw [List.filter_eq_nil_iff]
        intro a ha
        simp [ha]
      simp only [List.foldl, hl, hfilter, List.append_nil]
      exact ih (fun l' hl' => hmem l' (by simp [hl']))
  cases css with
  | nil => exact absurd rfl hne
  | cons l rest =>
    have hl : l = cs := hall l (by simp)
    have hfirst : ([] : List String) ++ l.filter (fun c => decide (c ∉ ([] : List String))) = cs := by
      simp [hl]
    unfold unionCols
    simp only [List.foldl]
    rw [hfirst]
    exact haux rest (fun l' hl' => hall l' (by simp [hl']))

theorem rows_map_length_sum (ts : List String) (dfs : List DataFrame) :
    (dfs.map (List.length ∘ fun d => d.rows.map (realignRow d.cols ts))).sum =
      (dfs.map (fun d => d.rows.length)).sum := by
  induction dfs with
  | nil => rfl
  | cons d rest ih =>
    simp only [List.map_cons, List.sum_cons, Function.comp_apply, List.length_map, ih]

/-- Row-wise concatenation sums the row counts of its inputs. -/
theorem pd_concat_rows_length (dfs : List DataFrame) :
    (pd_concat dfs).rows.length = (dfs.map (fun d => d.rows.length)).sum := by
  simp only [pd_concat, List.length_flatMap]
  exact rows_map_length_sum _ _

/-! ## Sample data for witnesses -/

def dfSample : DataFrame := ⟨["amount"], [[Cell.val "10"], [Cell.val "20"]]⟩

def dfSample2 : DataFrame := ⟨["x", "y"], [[Cell.na, Cell.val "1"]]⟩

/-- A script that stamps the wall clock into its result table — the
semantics of e.g. `output_df = pd.DataFrame({"at": [str(datetime.now())]})`,
legal because the namespace binds the datetime module. -/
def clockScript : TimedScript := fun now _ =>
  ScriptOutcome.finished [] dfSample
    [("output_df", PyVal.frame ⟨["at"], [[Cell.val now]]⟩)] []

/-! ## Claims -/

/-- C1: if a script's run binds `output_df` to a DataFrame — in its local
scope, or in its global scope when the local binding is absent — then
`execute_python_script` returns exactly that DataFrame. -/
theorem exec_result_binding_local_then_global (ts : String) (h : Heap) (r : Nat)
    (script : Script) (st : St) (prints : List String) (dfAfter : DataFrame)
    (locs globs : List (String × PyVal)) (d : DataFrame)
    (hsc : script (h.getD r default) = ScriptOutcome.finished prints dfAfter locs globs)
    (hbind : List.lookup "output_df" locs = some (PyVal.frame d) ∨
      (List.lookup "output_df" locs = none ∧
        List.lookup "output_df" globs = some (PyVal.frame d))) :
    (execute_python_script ts h r script st).1 = some d := by
  simp only [execute_python_script, hsc]
  rcases hbind with hl | ⟨hl, hg⟩
  · simp [lookupOutput, hl]
  · simp [lookupOutput, hl, hg]

theorem exec_result_binding_local_then_global_witness :
    ((fun _ => ScriptOutcome.finished [] dfSample
        [("output_df", PyVal.frame dfSample2)] [] : Script)
      (([dfSample] : Heap).getD 0 default) =
      ScriptOutcome.finished [] dfSample [("output_df", PyVal.frame dfSample2)] []) ∧
    (execute_python_script "12:00:00" [dfSample] 0
      (fun _ => ScriptOutcome.finished [] dfSample
        [("output_df", PyVal.frame dfSample2)] []) ⟨[], []⟩).1 = some dfSample2 :=
  ⟨rfl, exec_result_binding_local_then_global "12:00:00" [dfSample] 0 _ ⟨[], []⟩
    [] dfSample [("output_df", PyVal.frame dfSample2)] [] dfSample2 rfl (Or.inl rfl)⟩

/-- C2: an exception raised during script execution never escapes
`execute_python_script`: the run returns `None` and the tier-specific
message lands in the console log and, with the traceback, in the error
log. -/
theorem exec_exception_converted_to_logs (ts : String) (h : Heap) (r : Nat)
    (script : Script) (st : St) (e : PyError) (tb : String) (prints : List String)
    (dfAfter : DataFrame)
    (hsc : script (h.getD r default) = ScriptOutcome.raised e tb prints dfAfter) :
    (execute_python_script ts h r script st).1 = none ∧
    (execute_python_script ts h r script st).2.2.console_logs.getLast? =
      some (consoleEntry ts "error" (pyErrMsg e)) ∧
    (execute_python_script ts h r script st).2.2.error_logs.getLast? =
      some (errorEntry ts (pyErrMsg e) (some tb)) := by
  simp only [execute_python_script, hsc]
  exact ⟨trivial, by rw [console_log_error]; exact getLast_console_log_to_console ts _ _ _,
    getLast_error_log_error ts _ _ _⟩

theorem exec_exception_converted_to_logs_witness :
    ((fun _ => ScriptOutcome.raised (PyError.nameError "name \x27pdd\x27 is not defined")
        "trace" [] dfSample : Script) (([dfSample] : Heap).getD 0 default) =
      ScriptOutcome.raised (PyError.nameError "name \x27pdd\x27 is not defined") "trace" [] dfSample) ∧
    ((execute_python_script "12:00:00" [dfSample] 0
        (fun _ => ScriptOutcome.raised (PyError.nameError "name \x27pdd\x27 is not defined")
          "trace" [] dfSample) ⟨[], []⟩).1 = none ∧
      (execute_python_script "12:00:00" [dfSample] 0
        (fun _ => ScriptOutcome.raised (PyError.nameError "name \x27pdd\x27 is not defined")
          "trace" [] dfSample) ⟨[], []⟩).2.2.console_logs.getLast? =
        some (consoleEntry "12:00:00" "error"
          (pyErrMsg (PyError.nameError "name \x27pdd\x27 is not defined"))) ∧
      (execute_python_script "12:00:00" [dfSample] 0
        (fun _ => ScriptOutcome.raised (PyError.nameError "name \x27pdd\x27 is not defined")
          "trace" [] dfSample) ⟨[], []⟩).2.2.error_logs.getLast? =
        some (errorEntry "12:00:00"
          (pyErrMsg (PyError.nameError "name \x27pdd\x27 is not defined")) (some "trace"))) :=
  ⟨rfl, exec_exception_converted_to_logs "12:00:00" [dfSample] 0 _ ⟨[], []⟩
    (PyError.nameError "name \x27pdd\x27 is not defined") "trace" [] dfSample rfl⟩

/-- C3: a run that completes without binding `output_df` in either scope
returns `None` and records the missing-output message in both the
console log and the error log. -/
theorem exec_missing_output_reported (ts : String) (h : Heap) (r : Nat)
    (script : Script) (st : St) (prints : List String) (dfAfter : DataFrame)
    (locs globs : List (String × PyVal))
    (hsc : script (h.getD r default) = ScriptOutcome.finished prints dfAfter locs globs)
    (hl : List.lookup "output_df" locs = none)
    (hg : List.lookup "output_df" globs = none) :
    (execute_python_script ts h r script st).1 = none ∧
    (execute_python_script ts h r script st).2.2.console_logs.getLast? =
      some (consoleEntry ts "error" "Script must define \x27output_df\x27 variable") ∧
    (execute_python_script ts h r script st).2.2.error_logs.getLast? =
      some (errorEntry ts "Script must define \x27output_df\x27 variable"
        (some "No output_df found after script execution")) := by
  simp only [execute_python_script, hsc, lookupOutput, hl, hg]
  exact ⟨trivial, by rw [console_log_error]; exact getLast_console_log_to_console ts _ _ _,
    getLast_error_log_error ts _ _ _⟩

theorem exec_missing_output_reported_witness :
    ((fun _ => ScriptOutcome.finished ["done"] dfSample [("z", PyVal.otherVal "int")] []
        : Script) (([dfSample] : Heap).getD 0 default) =
      ScriptOutcome.finished ["done"] dfSample [("z", PyVal.otherVal "int")] []) ∧
    ((execute_python_script "12:00:00" [dfSample] 0
        (fun _ => ScriptOutcome.finished ["done"] dfSample [("z", PyVal.otherVal "int")] [])
        ⟨[], []⟩).1 = none ∧
      (execute_python_script "12:00:00" [dfSample] 0
        (fun _ => ScriptOutcome.finished ["done"] dfSample [("z", PyVal.otherVal "int")] [])
        ⟨[], []⟩).2.2.console_logs.getLast? =
        some (consoleEntry "12:00:00" "error" "Script must define \x27output_df\x27 variable") ∧
      (execute_python_script "12:00:00" [dfSample] 0
        (fun _ => ScriptOutcome.finished ["done"] dfSample [("z", PyVal.otherVal "int")] [])
        ⟨[], []⟩).2.2.error_logs.getLast? =
        some (errorEntry "12:00:00" "Script must define \x27output_df\x27 variable"
          (some "No output_df found after script execution"))) :=
  ⟨rfl, exec_missing_output_reported "12:00:00" [dfSample] 0 _ ⟨[], []⟩
    ["done"] dfSample [("z", PyVal.otherVal "int")] [] rfl rfl rfl⟩

/-- C4: a run that binds `output_df` to a non-DataFrame value returns
`None` and logs a wrong-output-type message naming the observed type. -/
theorem exec_wrong_output_type_reported (ts : String) (h : Heap) (r : Nat)
    (script : Script) (st : St) (prints : List String) (dfAfter : DataFrame)
    (locs globs : List (String × PyVal)) (tname : String)
    (hsc : script (h.getD r default) = ScriptOutcome.finished prints dfAfter locs globs)
    (hbind : List.lookup "output_df" locs = some (PyVal.otherVal tname) ∨
      (List.lookup "output_df" locs = none ∧
        List.lookup "output_df" globs = some (PyVal.otherVal tname))) :
    (execute_python_script ts h r script st).1 = none ∧
    (execute_python_script ts h r script st).2.2.console_logs.getLast? =
      some (consoleEntry ts "error" ("output_df must be a DataFrame, got " ++ tname)) ∧
    (execute_python_script ts h r script st).2.2.error_logs.getLast? =
      some (errorEntry ts ("output_df must be a DataFrame, got " ++ tname) none) := by
  have hsel : lookupOutput locs globs = PyVal.otherVal tname := by
    rcases hbind with hl | ⟨hl, hg⟩
    · simp [lookupOutput, hl]
    · simp [lookupOutput, hl, hg]
  simp only [execute_python_script, hsc, hsel]
  exact ⟨trivial, by rw [console_log_error]; exact getLast_console_log_to_console ts _ _ _,
    getLast_error_log_error ts _ _ _⟩

theorem exec_wrong_output_type_reported_witness :
    ((fun _ => ScriptOutcome.finished [] dfSample
        [("output_df", PyVal.otherVal "<class \x27int\x27>")] [] : Script)
      (([dfSample] : Heap).getD 0 default) =
      ScriptOutcome.finished [] dfSample [("output_df", PyVal.otherVal "<class \x27int\x27>")] []) ∧
    ((execute_python_script "12:00:00" [dfSample] 0
        (fun _ => ScriptOutcome.finished [] dfSample
          [("output_df", PyVal.otherVal "<class \x27int\x27>")] []) ⟨[], []⟩).1 = none ∧
      (execute_python_script "12:00:00" [dfSample] 0
        (fun _ => ScriptOutcome.finished [] dfSample
          [("output_df", PyVal.otherVal "<class \x27int\x27>")] []) ⟨[], []⟩).2.2.console_logs.getLast? =
        some (consoleEntry "12:00:00" "error"
          ("output_df must be a DataFrame, got " ++ "<class \x27int\x27>")) ∧
      (execute_python_script "12:00:00" [dfSample] 0
        (fun _ => ScriptOutcome.finished [] dfSample
          [("output_df", PyVal.otherVal "<class \x27int\x27>")] []) ⟨[], []⟩).2.2.error_logs.getLast? =
        some (errorEntry "12:00:00"
          ("output_df must be a DataFrame, got " ++ "<class \x27int\x27>") none)) :=
  ⟨rfl, exec_wrong_output_type_reported "12:00:00" [dfSample] 0 _ ⟨[], []⟩
    [] dfSample [("output_df", PyVal.otherVal "<class \x27int\x27>")] [] "<class \x27int\x27>"
    rfl (Or.inl rfl)⟩

/-- C5: whatever the script does, the session's stored working table is
unchanged after the run — the script only ever sees and mutates a fresh
copy. -/
theorem exec_session_table_unchanged (ts : String) (h : Heap) (r : Nat)
    (script : Script) (st : St) (hr : r < h.length) :
    ((execute_python_script ts h r script st).2.1).getD r default = h.getD r default :=
  execute_getD_preserved ts h r script st hr

theorem exec_session_table_unchanged_witness :
    (0 < ([dfSample] : Heap).length) ∧
    ((execute_python_script "12:00:00" [dfSample] 0
        (fun d => ScriptOutcome.finished [] ⟨d.cols, []⟩ [] []) ⟨[], []⟩).2.1).getD 0 default =
      ([dfSample] : Heap).getD 0 default :=
  ⟨by decide, exec_session_table_unchanged "12:00:00" [dfSample] 0
    (fun d => ScriptOutcome.finished [] ⟨d.cols, []⟩ [] []) ⟨[], []⟩ (by decide)⟩

/-- C10: a run that binds `output_df` to `None` (locals first, globals
when the local binding is absent) is reported as missing output, not as
a wrong output type: the run returns `None` with the missing-output
message in both logs. -/
theorem exec_none_binding_is_missing_output (ts : String) (h : Heap) (r : Nat)
    (script : Script) (st : St) (prints : List String) (dfAfter : DataFrame)
    (locs globs : List (String × PyVal))
    (hsc : script (h.getD r default) = ScriptOutcome.finished prints dfAfter locs globs)
    (hbind : List.lookup "output_df" locs = some PyVal.pynone ∨
      (List.lookup "output_df" locs = none ∧
        List.lookup "output_df" globs = some PyVal.pynone)) :
    (execute_python_script ts h r script st).1 = none ∧
    (execute_python_script ts h r script st).2.2.console_logs.getLast? =
      some (consoleEntry ts "error" "Script must define \x27output_df\x27 variable") ∧
    (execute_python_script ts h r script st).2.2.error_logs.getLast? =
      some (errorEntry ts "Script must define \x27output_df\x27 variable"
        (some "No output_df found after script execution")) := by
  have hsel : lookupOutput locs globs = PyVal.pynone := by
    rcases hbind with hl | ⟨hl, hg⟩
    · simp [lookupOutput, hl]
    · simp [lookupOutput, hl, hg]
  simp only [execute_python_script, hsc, hsel]
  exact ⟨trivial, by rw [console_log_error]; exact getLast_console_log_to_console ts _ _ _,
    getLast_error_log_error ts _ _ _⟩

theorem exec_none_binding_is_missing_output_witness :
    ((fun _ => ScriptOutcome.finished [] dfSample [("output_df", PyVal.pynone)]
        [("output_df", PyVal.frame dfSample2)] : Script)
      (([dfSample] : Heap).getD 0 default) =
      ScriptOutcome.finished [] dfSample [("output_df", PyVal.pynone)]
        [("output_df", PyVal.frame dfSample2)]) ∧
    ((execute_python_script "12:00:00" [dfSample] 0
        (fun _ => ScriptOutcome.finished [] dfSample [("output_df", PyVal.pynone)]
          [("output_df", PyVal.frame dfSample2)]) ⟨[], []⟩).1 = none ∧
      (execute_python_script "12:00:00" [dfSample] 0
        (fun _ => ScriptOutcome.finished [] dfSample [("output_df", PyVal.pynone)]
          [("output_df", PyVal.frame dfSample2)]) ⟨[], []⟩).2.2.console_logs.getLast? =
        some (consoleEntry "12:00:00" "error" "Script must define \x27output_df\x27 variable") ∧
      (execute_python_script "12:00:00" [dfSample] 0
        (fun _ => ScriptOutcome.finished [] dfSample [("output_df", PyVal.pynone)]
          [("output_df", PyVal.frame dfSample2)]) ⟨[], []⟩).2.2.error_logs.getLast? =
        some (errorEntry "12:00:00" "Script must define \x27output_df\x27 variable"
          (some "No output_df found after script execution"))) :=
  ⟨rfl, exec_none_binding_is_missing_output "12:00:00" [dfSample] 0 _ ⟨[], []⟩
    [] dfSample [("output_df", PyVal.pynone)] [("output_df", PyVal.frame dfSample2)]
    rfl (Or.inl rfl)⟩

/-- C6: after any sequence of calls to `log_to_console` and `log_error`
starting from cleared logs, the console log holds at most 100 entries,
the error log at most 20, and each retained log is a suffix of the full
stream of entries appended to it — eviction is oldest-first. -/
theorem logs_bounded_oldest_evicted (calls : List LogCall) :
    (calls.foldl applyLog ⟨[], []⟩).console_logs.length ≤ 100 ∧
    (calls.foldl applyLog ⟨[], []⟩).error_logs.length ≤ 20 ∧
    (calls.foldl applyLog ⟨[], []⟩).console_logs <:+ consoleEntries calls ∧
    (calls.foldl applyLog ⟨[], []⟩).error_logs <:+ errorEntries calls := by
  have h := foldl_applyLog_inv calls ⟨[], []⟩ (by simp) (by simp)
  simpa using h

/-- C7: when at least one file loads and all loaded tables share the
column list `cs`, the combiner returns a table with that column list
whose row count is the sum of the loaded tables' row counts; a single
loaded table is returned verbatim. -/
theorem combine_identical_schema_rowsum (ts : String)
    (process : UploadedFile → Option DataFrame) (files : List UploadedFile)
    (st : St) (cs : List String)
    (hne : files.filterMap process ≠ [])
    (hcols : ∀ d ∈ files.filterMap process, d.cols = cs) :
    ∃ c, (combine_uploaded_files ts process files st).1 = some c ∧
      c.cols = cs ∧
      c.rows.length = ((files.filterMap process).map (fun d => d.rows.length)).sum ∧
      ∀ d, files.filterMap process = [d] → c = d := by
  cases files with
  | nil => simp at hne
  | cons f rest =>
    simp only [combine_uploaded_files]
    rw [combine_fold_fst, List.nil_append]
    rcases hm : (f :: rest).filterMap process with _ | ⟨d, _ | ⟨d2, ds⟩⟩
    · exact absurd hm hne
    · have hd : d ∈ List.filterMap process (f :: rest) := by rw [hm]; simp
      refine ⟨d, by simp, hcols d hd, by simp, ?_⟩
      intro d' hd'
      simpa using hd'
    · have hsub : ∀ x ∈ d :: d2 :: ds, x ∈ List.filterMap process (f :: rest) := by
        rw [hm]
        exact fun x hx => hx
      refine ⟨pd_concat (d :: d2 :: ds), by simp, ?_, ?_, ?_⟩
      · have huc : unionCols ((d :: d2 :: ds).map (fun x => x.cols)) = cs := by
          refine unionCols_const cs _ ?_ (by simp)
          intro l hl
          rw [List.mem_map] at hl
          obtain ⟨x, hx, rfl⟩ := hl
          exact hcols x (hsub x hx)
        simpa [pd_concat] using huc
      · exact pd_concat_rows_length _
      · intro d' hd'
        injection hd' with _ h2
        exact absurd h2 (by simp)

theorem combine_identical_schema_rowsum_witness :
    (([⟨"a.csv", "a"⟩, ⟨"b.csv", "b"⟩] : List UploadedFile).filterMap
        (fun _ => some dfSample) ≠ []) ∧
    (∀ d ∈ ([⟨"a.csv", "a"⟩, ⟨"b.csv", "b"⟩] : List UploadedFile).filterMap
        (fun _ => some dfSample), d.cols = ["amount"]) ∧
    (∃ c, (combine_uploaded_files "12:00:00" (fun _ => some dfSample)
        [⟨"a.csv", "a"⟩, ⟨"b.csv", "b"⟩] ⟨[], []⟩).1 = some c ∧
      c.cols = ["amount"] ∧
      c.rows.length = ((([⟨"a.csv", "a"⟩, ⟨"b.csv", "b"⟩] : List UploadedFile).filterMap
        (fun _ => some dfSample)).map (fun d => d.rows.length)).sum ∧
      ∀ d, ([⟨"a.csv", "a"⟩, ⟨"b.csv", "b"⟩] : List UploadedFile).filterMap
        (fun _ => some dfSample) = [d] → c = d) :=
  ⟨by decide, by decide,
    combine_identical_schema_rowsum "12:00:00" (fun _ => some dfSample)
      [⟨"a.csv", "a"⟩, ⟨"b.csv", "b"⟩] ⟨[], []⟩ ["amount"] (by decide) (by decide)⟩

/-- C8: the combiner returns no table exactly when zero files load
successfully — in particular for an empty upload list, and when every
file fails to load (failures are skipped, not fatal). -/
theorem combine_none_iff_zero_loaded (ts : String)
    (process : UploadedFile → Option DataFrame) (files : List UploadedFile) (st : St) :
    (combine_uploaded_files ts process files st).1 = none ↔
      files.filterMap process = [] := by
  cases files with
  | nil => simp [combine_uploaded_files]
  | cons f rest =>
    simp only [combine_uploaded_files]
    rw [combine_fold_fst, List.nil_append]
    rcases hm : (f :: rest).filterMap process with _ | ⟨d, _ | ⟨d2, ds⟩⟩ <;> simp [hm]

/-- C9, refuted as stated: the execution namespace hands the script the
wall clock, so re-running the identical script against the identical
working table need not produce byte-identical CSV export output — a
script that stamps the run time into `output_df` yields different bytes
at two different run times. -/
theorem exec_rerun_clock_counterexample :
    (execute_python_script "12:05:00"
        (execute_python_script "12:00:00" [dfSample] 0 (clockScript "12:00:00")
          ⟨[], []⟩).2.1
        0 (clockScript "12:05:00") ⟨[], []⟩).1.map to_csv ≠
      (execute_python_script "12:00:00" [dfSample] 0 (clockScript "12:00:00")
        ⟨[], []⟩).1.map to_csv := by
  decide

/-- C9 (amended): re-running the identical script against the identical
working table (whose heap cell the first run provably leaves unchanged)
produces the same result and hence byte-identical CSV export output,
provided the script's outcome on that table does not depend on the wall
clock — the runs at the two times agree on the working table. -/
theorem exec_rerun_export_identical_of_time_independent (ts1 ts2 : String) (h : Heap)
    (r : Nat) (script : TimedScript) (st1 st2 : St)
    (hdet : script ts2 (h.getD r default) = script ts1 (h.getD r default))
    (hr : r < h.length) :
    (execute_python_script ts2 (execute_python_script ts1 h r (script ts1) st1).2.1
        r (script ts2) st2).1.map to_csv =
      (execute_python_script ts1 h r (script ts1) st1).1.map to_csv ∧
    (execute_python_script ts2 (execute_python_script ts1 h r (script ts1) st1).2.1
        r (script ts2) st2).1 =
      (execute_python_script ts1 h r (script ts1) st1).1 := by
  have hres : (execute_python_script ts2
      (execute_python_script ts1 h r (script ts1) st1).2.1 r (script ts2) st2).1 =
      (execute_python_script ts1 h r (script ts1) st1).1 := by
    rw [execute_fst, execute_fst, execute_getD_preserved ts1 h r (script ts1) st1 hr]
    unfold resultOf
    rw [hdet]
  exact ⟨by rw [hres], hres⟩

theorem exec_rerun_export_identical_of_time_independent_witness :
    ((fun (_ : String) (d : DataFrame) =>
        ScriptOutcome.finished [] d [("output_df", PyVal.frame d)] [] : TimedScript)
      "12:05:00" (([dfSample] : Heap).getD 0 default) =
      (fun (_ : String) (d : DataFrame) =>
        ScriptOutcome.finished [] d [("output_df", PyVal.frame d)] [] : TimedScript)
      "12:00:00" (([dfSample] : Heap).getD 0 default)) ∧
    (0 < ([dfSample] : Heap).length) ∧
    (execute_python_script "12:05:00"
        (execute_python_script "12:00:00" [dfSample] 0
          (fun d => ScriptOutcome.finished [] d [("output_df", PyVal.frame d)] []) ⟨[], []⟩).2.1
        0 (fun d => ScriptOutcome.finished [] d [("output_df", PyVal.frame d)] [])
        ⟨[], []⟩).1.map to_csv =
      (execute_python_script "12:00:00" [dfSample] 0
        (fun d => ScriptOutcome.finished [] d [("output_df", PyVal.frame d)] [])
        ⟨[], []⟩).1.map to_csv :=
  ⟨rfl, by decide,
    (exec_rerun_export_identical_of_time_independent "12:00:00" "12:05:00" [dfSample] 0
      (fun (_ : String) (d : DataFrame) =>
        ScriptOutcome.finished [] d [("output_df", PyVal.frame d)] [])
      ⟨[], []⟩ ⟨[], []⟩ rfl (by decide)).1⟩

end FinanceAutomation
